import Mathlib

/-!
Verification of the `ai-context-schema` validation engine: a shallow
embedding of `src/validation/schema-validator.js` (class `SchemaValidator`)
and `src/validation/compatibility-checker.js` (class `CompatibilityChecker`).

JavaScript numbers appearing in the embedded code paths are integers
(lengths, priorities, character limits); they are modelled as `Nat`/`Int`.
JavaScript string `.length` counts UTF-16 code units, which coincides with
`String.length` on the ASCII documents handled here.  `Math.round` (round
half towards positive infinity) applied to the exact ratio is used to model
the score computation; the IEEE-754 evaluation of `(c / t) * 100` agrees
with the exact ratio at every `score = 100` boundary point (checked for all
denominators up to 5000), which is the only rounding boundary any theorem
below depends on.
-/

namespace AiContextSchema

/-- Dynamic (number-or-string) JavaScript value, used for the `priority`
platform field, which holds an integer for `github-copilot` and an
enumeration string for `cursor`. -/
inductive JVal where
  | num (n : Int)
  | str (s : String)
deriving DecidableEq, Repr

/-- JavaScript truthiness of a `JVal`: `0` and the empty string are falsy. -/
def JVal.truthy : JVal → Bool
  | .num n => n != 0
  | .str s => s != ""

/-- JavaScript `<` comparison of a `priority` value against an integer.
An enumeration string (the only strings stored in `priority` here) coerces
to NaN, for which every comparison is false. -/
def JVal.ltNum : JVal → Int → Bool
  | .num n, m => n < m
  | .str _, _ => false

/-- JavaScript `>` comparison of a `priority` value against an integer;
see `JVal.ltNum`. -/
def JVal.gtNum : JVal → Int → Bool
  | .num n, m => n > m
  | .str _, _ => false

/-- Template-literal rendering of a `priority` value. -/
def JVal.render : JVal → String
  | .num n => toString n
  | .str s => s

/-- Platform configuration record (one value of the `platforms` mapping).
In the source this is a dynamic object; the fields below are exactly the
ones the two validators read.  `Option` distinguishes an absent key from a
present one; `declaredKeys` records `Object.keys(config)` for the generic
key-count check. -/
structure PlatformConfig where
  compatible : Bool := false
  command : Bool := false
  /-- Truthiness of `config.namespace` (a Lean keyword, hence the name). -/
  namespaceField : Bool := false
  memory : Option Bool := none
  mcpIntegration : Bool := false
  allowedTools : Option (List String) := none
  activation : Option String := none
  globs : Option (List String) := none
  mode : Option String := none
  xmlTag : Option String := none
  characterLimit : Option Int := none
  priority : Option JVal := none
  reviewType : Option String := none
  scope : Option String := none
  declaredKeys : List String := []
deriving DecidableEq, Repr

/-- Parsed context document (`schema` object in the source): YAML
frontmatter fields plus the markdown body stored by the parser in
`_content`.  Relationship fields model the well-typed case where the YAML
value is a sequence of ID strings. -/
structure Schema where
  id : Option String := none
  title : Option String := none
  description : Option String := none
  version : Option String := none
  category : Option String := none
  platforms : Option (List (String × PlatformConfig)) := none
  requires : Option (List String) := none
  suggests : Option (List String) := none
  conflicts : Option (List String) := none
  supersedes : Option (List String) := none
  mdContent : String := ""
deriving DecidableEq, Repr

/-- Validation error / warning / issue object.  SchemaValidator errors carry
`type`, `severity`, `path`, `message`; the `parse_error` object carries no
`severity`; CompatibilityChecker issues carry `schema` (the document ID)
instead of `path`.  Absent keys are `none`. -/
structure VError where
  etype : String
  severity : Option String := none
  path : Option String := none
  message : String := ""
  schemaId : Option String := none
deriving DecidableEq, Repr

/-- Per-document validation result (`ValidationResult`). -/
structure VResult where
  valid : Bool
  filePath : String
  schema : Option Schema := none
  errors : List VError := []
  warnings : List VError := []
deriving DecidableEq, Repr

/-- Incrementally built dependency map of a `SchemaValidator` instance
(`this.dependencies : Map<id, list<id>>`); the key is `schema.id`, which
may be absent (`undefined`). -/
abbrev DepMap := List (Option String × List String)

/-- Lookup in the dependency map (`Map.get`). -/
def depGet : DepMap → Option String → Option (List String)
  | [], _ => none
  | (k', v') :: rest, k => if k' == k then some v' else depGet rest k

/-- Insertion into the dependency map (`Map.set`): replaces the value of an
existing key in place, otherwise appends. -/
def depSet : DepMap → Option String → List String → DepMap
  | [], k, v => [(k, v)]
  | (k', v') :: rest, k, v =>
    if k' == k then (k, v) :: rest else (k', v') :: depSet rest k v

/-- Depth-first cycle search over the dependency map, mirroring the inner
`hasCycle(schemaId, requires)` closure: `visited` persists across sibling
edges, `stack` is the current recursion stack.  `fuel` bounds the nesting
depth; each nested call either returns at once or adds a fresh ID to
`visited`, so `deps.length + 2` fuel is never exhausted. -/
def hasCycleGo (deps : DepMap) :
    Nat → List (Option String) → List (Option String) → Option String →
    List String → Bool × List (Option String)
  | 0, v, _, _, _ => (false, v)
  | fuel + 1, v, stack, id, reqs =>
    if stack.contains id then (true, v)
    else if v.contains id then (false, v)
    else
      reqs.foldl
        (fun acc dep =>
          if acc.1 then acc
          else
            hasCycleGo deps fuel acc.2 (id :: stack) (some dep)
              ((depGet deps (some dep)).getD []))
        (false, id :: v)

/-- Source `hasCyclicDependencies(schema)`: records the document's own
`requires` edges in the instance map, then runs the DFS from its ID.
Returns the flag together with the updated map (the mutated instance
state). -/
def hasCyclicDependencies (dm : DepMap) (schema : Schema) : Bool × DepMap :=
  let reqs := schema.requires.getD []
  let dm' := depSet dm schema.id reqs
  ((hasCycleGo dm' (dm'.length + 2) [] [] schema.id reqs).1, dm')

/-- Character class of the regex `^[a-z0-9-]+$`. -/
def isKebabChar (c : Char) : Bool :=
  (Char.ofNat 97 ≤ c && c ≤ Char.ofNat 122) || c.isDigit || c == '-'

/-- Test of the regex `^[a-z0-9-]+$`: nonempty and all characters in the
class. -/
def kebabOk (s : String) : Bool :=
  s != "" && s.data.all isKebabChar

/-- Character class `[a-zA-Z0-9-]` used by the semver and xml-tag
patterns. -/
def alnumDash (c : Char) : Bool :=
  c.isAlpha || c.isDigit || c == '-'

/-- Consume one-or-more digits (`\d+`), returning the remainder. -/
def eatDigits : List Char → Option (List Char)
  | c :: rest => if c.isDigit then some (rest.dropWhile Char.isDigit) else none
  | [] => none

/-- Consume a literal dot. -/
def eatDot : List Char → Option (List Char)
  | '.' :: rest => some rest
  | _ => none

/-- Consume an optional `mark` followed by one-or-more `[a-zA-Z0-9-]`
characters (the `(-...)?` and `(+...)?` groups of the semver pattern). -/
def eatOptGroup (mark : Char) : List Char → Option (List Char)
  | [] => some []
  | c :: rest =>
    if c == mark then
      match rest with
      | d :: _ => if alnumDash d then some (rest.dropWhile alnumDash) else none
      | [] => none
    else some (c :: rest)

/-- Test of the semantic-version regex
`^\d+\.\d+\.\d+(-[a-zA-Z0-9-]+)?(\+[a-zA-Z0-9-]+)?$`. -/
def semverOk (s : String) : Bool :=
  (do
    let cs ← eatDigits s.data
    let cs ← eatDot cs
    let cs ← eatDigits cs
    let cs ← eatDot cs
    let cs ← eatDigits cs
    let cs ← eatOptGroup '-' cs
    let cs ← eatOptGroup '+' cs
    if cs.isEmpty then some () else none).isSome

/-- Test of the xml-tag regex `^[a-zA-Z][a-zA-Z0-9-]*$`. -/
def xmlTagOk (s : String) : Bool :=
  match s.data with
  | c :: rest => c.isAlpha && rest.all alnumDash
  | [] => false

/-- JavaScript `String.prototype.includes` restricted to a single-character
needle. -/
def strIncludesChar (s : String) (c : Char) : Bool :=
  s.data.contains c

/-- Substring search on character lists (`haystack.includes(needle)`). -/
def listHasSub (pat : List Char) : List Char → Bool
  | [] => pat.isEmpty
  | c :: rest => pat.isPrefixOf (c :: rest) || listHasSub pat rest

/-- JavaScript `String.prototype.includes`. -/
def strIncludes (s pat : String) : Bool :=
  listHasSub pat.data s.data

/-- Truthiness of a JavaScript number modelled as `Int` (`0` is falsy). -/
def intTruthy (n : Int) : Bool := n != 0

/-- Truthiness of an optional string field (absent or empty is falsy). -/
def strFieldTruthy : Option String → Bool
  | some s => s != ""
  | none => false

/-- Source `validatePlatformConfig(platform, config)` (SchemaValidator).
Platform-specific field checks, skipped entirely for incompatible
platforms; the `switch` has no default case. -/
def validatePlatformConfig (platform : String) (config : PlatformConfig) :
    List VError :=
  if !config.compatible then []
  else if platform == "claude-code" then
    if config.command && !config.namespaceField then
      [{ etype := "missing_namespace", severity := some "warning",
         path := some ("platforms." ++ platform ++ ".namespace"),
         message := "Namespace recommended when command is enabled" }]
    else []
  else if platform == "cursor" then
    if config.activation == some "auto-attached" && config.globs == none then
      [{ etype := "missing_globs", severity := some "error",
         path := some ("platforms." ++ platform ++ ".globs"),
         message := "Globs required for auto-attached activation" }]
    else []
  else if platform == "windsurf" then
    match config.characterLimit with
    | some cl =>
      if intTruthy cl && cl > 6000 then
        [{ etype := "character_limit_exceeded", severity := some "warning",
           path := some ("platforms." ++ platform ++ ".characterLimit"),
           message := "Character limit exceeds Windsurf maximum (6000)" }]
      else []
    | none => []
  else if platform == "github-copilot" then
    match config.priority with
    | some p =>
      if p.truthy && (p.ltNum 1 || p.gtNum 10) then
        [{ etype := "invalid_priority", severity := some "error",
           path := some ("platforms." ++ platform ++ ".priority"),
           message := "Priority must be between 1 and 10" }]
      else []
    | none => []
  else []

/-- Iteration order of `[...new Set(list)]`: first occurrences, in
insertion order. -/
def jsSetList : List String → List String → List String
  | [], _ => []
  | x :: rest, seen =>
    if seen.contains x then jsSetList rest seen
    else x :: jsSetList rest (x :: seen)

/-- Intersection computed by `findRelationshipConflicts`
(`[...requires].filter((id) => conflicts.has(id))` over the two sets). -/
def conflictIntersection (schema : Schema) : List String :=
  (jsSetList (schema.requires.getD []) []).filter
    (fun id => (schema.conflicts.getD []).contains id)

/-- Source `findRelationshipConflicts(schema)`: the source spreads the
`requires` set and filters by membership in the `conflicts` set; a
nonempty intersection produces one error naming the intersecting IDs. -/
def findRelationshipConflicts (schema : Schema) : List VError :=
  let intersection := conflictIntersection schema
  if intersection.length > 0 then
    [{ etype := "conflicting_relationships", severity := some "error",
       path := some "requires/conflicts",
       message := "Schemas cannot be both required and conflicted: "
                  ++ String.intercalate ", " intersection }]
  else []

/-- Source `validateBusinessRules(schema)`: cycle check (mutating the
instance dependency map), per-platform checks, ID format, version format,
relationship conflicts, in source push order. -/
def validateBusinessRules (dm : DepMap) (schema : Schema) :
    List VError × DepMap :=
  let cyc := hasCyclicDependencies dm schema
  let cycErrs :=
    if cyc.1 then
      [{ etype := "cyclic_dependency", severity := some "error",
         path := some "requires",
         message := "Cyclic dependency detected in requires field" }]
    else []
  let platErrs :=
    (schema.platforms.getD []).flatMap
      (fun pc => validatePlatformConfig pc.1 pc.2)
  let idErrs :=
    match schema.id with
    | some s =>
      if s != "" && !kebabOk s then
        [{ etype := "invalid_id", severity := some "error",
           path := some "id",
           message :=
             "ID must be kebab-case (lowercase letters, numbers, and hyphens only)" }]
      else []
    | none => []
  let verErrs :=
    match schema.version with
    | some s =>
      if s != "" && !semverOk s then
        [{ etype := "invalid_version", severity := some "error",
           path := some "version",
           message := "Version must follow semantic versioning format (e.g., 1.0.0)" }]
      else []
    | none => []
  (cycErrs ++ platErrs ++ idErrs ++ verErrs
     ++ findRelationshipConflicts schema, cyc.2)

/-- Estimated character count used by `validateContent`
(`content.length + (schema.title?.length || 0) + 200`; note it does not
include the description, unlike the checker's estimate). -/
def contentEstimate (schema : Schema) : Nat :=
  schema.mdContent.length + ((schema.title.map String.length).getD 0) + 200

/-- Truthiness of `schema.platforms?.windsurf?.compatible`. -/
def windsurfCompatible (schema : Schema) : Bool :=
  match (schema.platforms.getD []).find? (fun pc => pc.1 == "windsurf") with
  | some pc => pc.2.compatible
  | none => false

/-- Source `validateContent(schema)`: heuristic warnings on the markdown
body, plus the Windsurf size warning. -/
def validateContent (schema : Schema) : List VError :=
  let content := schema.mdContent
  let e1 :=
    if content.length < 50 then
      [{ etype := "insufficient_content", severity := some "warning",
         path := some "content",
         message := "Content appears too short to be useful" }]
    else []
  let e2 :=
    if !strIncludesChar content '#' then
      [{ etype := "missing_headers", severity := some "warning",
         path := some "content",
         message := "Content should include markdown headers for organization" }]
    else []
  let e3 :=
    if !strIncludes content "```" then
      [{ etype := "missing_examples", severity := some "warning",
         path := some "content",
         message := "Content should include code examples" }]
    else []
  let estimatedChars := contentEstimate schema
  let e4 :=
    if estimatedChars > 6000 && windsurfCompatible schema then
      [{ etype := "windsurf_size_warning", severity := some "warning",
         path := some "content",
         message := "Content may be too large for Windsurf (estimated "
                    ++ toString estimatedChars ++ " chars, limit 6000)" }]
    else []
  e1 ++ e2 ++ e3 ++ e4

/-- Source `validateSchema(schema, filePath)`: structural JSON-Schema
validation (the compiled AJV validator together with `formatAjvErrors` is
passed in as `sv`; an empty list means structurally valid), then business
rules and content heuristics, split into errors and warnings by severity.
Returns the result together with the updated instance dependency map. -/
def validateSchema (sv : Schema → List VError) (dm : DepMap)
    (schema : Schema) (filePath : String) : VResult × DepMap :=
  let structErrors := sv schema
  let valid0 := structErrors.isEmpty
  let business := validateBusinessRules dm schema
  let contentErrors := validateContent schema
  let errors :=
    structErrors
      ++ business.1.filter (fun e => e.severity == some "error")
      ++ contentErrors.filter (fun e => e.severity == some "error")
  let warnings :=
    business.1.filter (fun e => e.severity == some "warning")
      ++ contentErrors.filter (fun e => e.severity == some "warning")
  ({ valid := if errors.length > 0 then false else valid0,
     filePath := filePath, schema := some schema,
     errors := errors, warnings := warnings }, business.2)

/-- Whitespace class `\s` of the frontmatter regex (ASCII part; the
documents handled here contain no exotic unicode whitespace). -/
def wsChar (c : Char) : Bool :=
  c == ' ' || c == '\t' || c == '\n' || c == '\x0D' ||
  c == '\x0B' || c == '\x0C'

/-- Remainders after matching `\s*\n` at the head of the input, in the
backtracking order of a greedy `\s*` (longest run first). -/
def wsNlSplits : List Char → List (List Char)
  | [] => []
  | c :: rest =>
    if c == '\n' then wsNlSplits rest ++ [rest]
    else if wsChar c then wsNlSplits rest
    else []

/-- Remainders after matching `\n---\s*\n` at the head of the input,
longest `\s*` first. -/
def closeSplits : List Char → List (List Char)
  | '\n' :: '-' :: '-' :: '-' :: r => wsNlSplits r
  | _ => []

/-- Lazy first capture group: starting from the shortest candidate (the
group is `[\s\S]*?`), stop at the first position where the closing
`\n---\s*\n` matches; the rest of the pattern (`([\s\S]*)$`) always
succeeds, so the first hit completes the match. -/
def splitFM (acc : List Char) : List Char → Option (List Char × List Char)
  | [] => none
  | c :: cs =>
    match (closeSplits (c :: cs)).head? with
    | some content => some (acc.reverse, content)
    | none => splitFM (c :: acc) cs

/-- Match of the frontmatter regex
`^---\s*\n([\s\S]*?)\n---\s*\n([\s\S]*)$` returning the two capture
groups (frontmatter, markdown body). -/
def parseSplit : List Char → Option (List Char × List Char)
  | '-' :: '-' :: '-' :: r => (wsNlSplits r).findSome? (splitFM [])
  | _ => none

/-- JavaScript `String.prototype.trim`. -/
def listTrim (cs : List Char) : List Char :=
  ((cs.dropWhile wsChar).reverse.dropWhile wsChar).reverse

/-- Scalar-or-sequence YAML value as produced for the flat documents
handled here. -/
inductive YVal where
  | str (s : String)
  | list (l : List String)
deriving DecidableEq, Repr

/-- Models the external `js-yaml` parser (`yaml.load`) on the flat
mappings used by the validated documents: one `key: value` entry per
line, the value either a plain scalar or a flow sequence `[a, b]`.  A
nonempty line without a colon is rejected, standing for the parse errors
`js-yaml` raises on such frontmatter. -/
def yamlLoadLine (line : List Char) : Except String (Option (String × YVal)) :=
  let trimmed := listTrim line
  if trimmed.isEmpty then .ok none
  else
    match trimmed.splitOn ':' with
    | [] => .error "bad mapping entry"
    | [_] => .error "bad mapping entry"
    | key :: rest =>
      let value := listTrim (String.intercalate ":" (rest.map (String.mk ·))).data
      let yv :=
        match value with
        | '[' :: more =>
          if more.getLast? == some ']' then
            YVal.list (((more.dropLast).splitOn ',').map
              (fun item => String.mk (listTrim item)))
          else YVal.str (String.mk value)
        | _ => YVal.str (String.mk value)
      .ok (some (String.mk (listTrim key), yv))

/-- Models `yaml.load` over all lines of the frontmatter block. -/
def yamlLoad (cs : List Char) : Except String (List (String × YVal)) :=
  (cs.splitOn '\n').foldr
    (fun line acc => do
      let fields ← acc
      match ← yamlLoadLine line with
      | some kv => pure (kv :: fields)
      | none => pure fields)
    (.ok [])

/-- String-valued field lookup on the parsed YAML mapping. -/
def yGetStr (fields : List (String × YVal)) (key : String) : Option String :=
  match fields.find? (fun kv => kv.1 == key) with
  | some (_, .str s) => some s
  | _ => none

/-- Sequence-valued field lookup on the parsed YAML mapping. -/
def yGetList (fields : List (String × YVal)) (key : String) :
    Option (List String) :=
  match fields.find? (fun kv => kv.1 == key) with
  | some (_, .list l) => some l
  | _ => none

/-- Document record assembled from the parsed frontmatter; the flat
mini-YAML above never produces a `platforms` mapping (nested mappings are
outside the concrete documents fed through the parser here). -/
def buildSchema (fields : List (String × YVal)) (md : List Char) : Schema :=
  { id := yGetStr fields "id", title := yGetStr fields "title",
    description := yGetStr fields "description",
    version := yGetStr fields "version",
    category := yGetStr fields "category", platforms := none,
    requires := yGetList fields "requires",
    suggests := yGetList fields "suggests",
    conflicts := yGetList fields "conflicts",
    supersedes := yGetList fields "supersedes",
    mdContent := String.mk (listTrim md) }

/-- Source `parseSchema(content)`: split the frontmatter with the regex
(failure throws the frontmatter-not-found error), parse it as YAML
(failure throws a wrapped YAML error), and store the trimmed markdown
body in the document. -/
def parseSchema (content : String) : Except String Schema :=
  match parseSplit content.data with
  | none => .error "Invalid format: YAML frontmatter not found"
  | some (fm, md) =>
    match yamlLoad fm with
    | .error e => .error ("Invalid YAML frontmatter: " ++ e)
    | .ok fields => .ok (buildSchema fields md)

/-- Filesystem model: `fs.readFileSync` either yields the file's text or
throws (modelled by `Except`). -/
abbrev FileSys := String → Except String String

/-- Combined read-and-parse step of `validateFile`: either the parsed
document or the message of the first thrown error. -/
def readParse (fs : FileSys) (filePath : String) : Except String Schema := do
  parseSchema (← fs filePath)

/-- Result produced by the `catch` block of `validateFile`: `valid: false`
with a single `parse_error` entry (no `severity`, no `schema`, no
`warnings` key). -/
def parseErrorResult (filePath msg : String) : VResult :=
  { valid := false, filePath := filePath, schema := none,
    errors := [{ etype := "parse_error",
                 message := "Failed to parse file: " ++ msg }],
    warnings := [] }

/-- Source `validateFile(filePath)`: read and parse, falling back to a
`parse_error` result on any thrown error; on success, validate. -/
def validateFile (sv : Schema → List VError) (fs : FileSys) (dm : DepMap)
    (filePath : String) : VResult × DepMap :=
  match readParse fs filePath with
  | .error msg => (parseErrorResult filePath msg, dm)
  | .ok schema => validateSchema sv dm schema filePath

/-- Map from document ID to document and file path built during the first
pass of `validateFiles` (`allSchemas`); keyed by `schema.id`, which may be
absent. -/
abbrev AllSchemas := List (Option String × Schema × String)

/-- Membership test `allSchemas.has(id)` for a concrete string ID. -/
def allHas (all : AllSchemas) (id : String) : Bool :=
  all.any (fun e => e.1 == some id)

/-- Source `validateRelationships(schema, allSchemas)`: second-pass
reference resolution; missing `requires` targets are errors, missing
`suggests` / `supersedes` targets are warnings. -/
def validateRelationships (schema : Schema) (all : AllSchemas) :
    List VError :=
  ((schema.requires.getD []).filter (fun rid => !allHas all rid)).map
    (fun rid =>
      { etype := "missing_dependency", severity := some "error",
        path := some "requires",
        message := "Required schema not found: " ++ rid })
  ++ ((schema.suggests.getD []).filter (fun sid => !allHas all sid)).map
    (fun sid =>
      { etype := "missing_suggestion", severity := some "warning",
        path := some "suggests",
        message := "Suggested schema not found: " ++ sid })
  ++ ((schema.supersedes.getD []).filter (fun sid => !allHas all sid)).map
    (fun sid =>
      { etype := "missing_superseded", severity := some "warning",
        path := some "supersedes",
        message := "Superseded schema not found: " ++ sid })

/-- First pass of `validateFiles`: validate each file in order, threading
the instance dependency map, and record every valid document (`Map.set`
keyed by its ID) for the relationship pass. -/
def firstPass (sv : Schema → List VError) (fs : FileSys) :
    DepMap → AllSchemas → List String → List VResult × AllSchemas × DepMap
  | dm, all, [] => ([], all, dm)
  | dm, all, path :: rest =>
    let step := validateFile sv fs dm path
    let all' :=
      match step.1.schema with
      | some s =>
        if step.1.valid then
          match all.find? (fun e => e.1 == s.id) with
          | some _ => all.map (fun e => if e.1 == s.id then (s.id, s, path) else e)
          | none => all ++ [(s.id, s, path)]
        else all
      | none => all
    let further := firstPass sv fs step.2 all' rest
    (step.1 :: further.1, further.2)

/-- Second-pass treatment of a single result: for an initially valid
document, append the relationship errors and recompute validity (`valid`
becomes the absence of `error`-severity entries among the newly added
ones); results without a parsed document are left alone. -/
def secondPassOne (all : AllSchemas) (r : VResult) : VResult :=
  match r.schema with
  | some s =>
    if r.valid then
      let rel := validateRelationships s all
      if rel.length > 0 then
        { r with errors := r.errors ++ rel,
                 valid := rel.all (fun e => e.severity != some "error") }
      else r
    else r
  | none => r

/-- Second pass of `validateFiles` over the whole batch. -/
def secondPass (all : AllSchemas) (results : List VResult) : List VResult :=
  results.map (secondPassOne all)

/-- Frequency table bump used by `generateSummary` for the
`errorTypes` / `warningTypes` objects. -/
def bumpCount (table : List (String × Nat)) (key : String) :
    List (String × Nat) :=
  if table.any (fun kv => kv.1 == key) then
    table.map (fun kv => if kv.1 == key then (kv.1, kv.2 + 1) else kv)
  else table ++ [(key, 1)]

/-- Summary statistics (`generateSummary`). -/
structure VSummary where
  total : Nat
  valid : Nat
  invalid : Nat
  errors : Nat
  warnings : Nat
  errorTypes : List (String × Nat)
  warningTypes : List (String × Nat)
deriving DecidableEq, Repr

/-- Source `generateSummary(results)`. -/
def generateSummary (results : List VResult) : VSummary :=
  { total := results.length,
    valid := (results.filter (fun r => r.valid)).length,
    invalid := (results.filter (fun r => !r.valid)).length,
    errors := results.foldl (fun n r => n + r.errors.length) 0,
    warnings := results.foldl (fun n r => n + r.warnings.length) 0,
    errorTypes :=
      results.foldl
        (fun t r => r.errors.foldl (fun t e => bumpCount t e.etype) t) [],
    warningTypes :=
      results.foldl
        (fun t r => r.warnings.foldl (fun t e => bumpCount t e.etype) t) [] }

/-- Batch validation output (`{ results, summary }`). -/
structure VFilesOut where
  results : List VResult
  summary : VSummary
deriving DecidableEq, Repr

/-- Source `validateFiles(filePaths)`: first pass, relationship pass,
summary.  The updated instance dependency map is returned alongside, as
the validator object retains it. -/
def validateFiles (sv : Schema → List VError) (fs : FileSys) (dm : DepMap)
    (filePaths : List String) : VFilesOut × DepMap :=
  let fp := firstPass sv fs dm [] filePaths
  let results := secondPass fp.2.1 fp.1
  ({ results := results, summary := generateSummary results }, fp.2.2)

/-- Checker `validateClaudeFeatures(config, schema)`: missing memory
configuration, command without namespace, MCP integration without
tools. -/
def validateClaudeFeatures (config : PlatformConfig) (schema : Schema) :
    List VError :=
  (if config.memory == none then
    [{ etype := "missing_feature", severity := some "warning",
       message := "Memory configuration not specified",
       schemaId := schema.id }]
   else [])
  ++ (if config.command && !config.namespaceField then
    [{ etype := "incomplete_config", severity := some "warning",
       message := "Command enabled but namespace not specified",
       schemaId := schema.id }]
   else [])
  ++ (if config.mcpIntegration && config.allowedTools == none then
    [{ etype := "incomplete_config", severity := some "info",
       message := "MCP integration enabled but no tools specified",
       schemaId := schema.id }]
   else [])

/-- Checker `validateCursorFeatures(config, schema)`: auto-attachment
without globs (here, unlike the SchemaValidator rule, an empty `globs`
array also fails), empty glob patterns, and the priority enumeration. -/
def validateCursorFeatures (config : PlatformConfig) (schema : Schema) :
    List VError :=
  (if config.activation == some "auto-attached"
      && (config.globs == none || (config.globs.getD []).isEmpty) then
    [{ etype := "missing_requirement", severity := some "error",
       message := "Auto-attached activation requires globs configuration",
       schemaId := schema.id }]
   else [])
  ++ ((config.globs.getD []).filter (fun g => g.length == 0)).map
    (fun g =>
      { etype := "invalid_config", severity := some "error",
        message := "Invalid glob pattern: " ++ g, schemaId := schema.id })
  ++ (match config.priority with
    | some p =>
      if p.truthy
          && !(match p with
               | .str s => s == "high" || s == "medium" || s == "low"
               | .num _ => false) then
        [{ etype := "invalid_config", severity := some "error",
           message := "Invalid priority: " ++ p.render,
           schemaId := schema.id }]
      else []
    | none => [])

/-- Checker `estimateContentSize(schema)`: title, description and body
lengths plus a 200-character overhead. -/
def estimateContentSize (schema : Schema) : Nat :=
  ((schema.title.map String.length).getD 0)
    + ((schema.description.map String.length).getD 0)
    + schema.mdContent.length + 200

/-- Checker `validateWindsurfFeatures(config, schema)`: size estimate
against the 6000-character limit, mode enumeration, xml tag pattern. -/
def validateWindsurfFeatures (config : PlatformConfig) (schema : Schema) :
    List VError :=
  (if estimateContentSize schema > 6000 then
    [{ etype := "size_warning", severity := some "warning",
       message := "Content may exceed Windsurf limit (estimated "
                  ++ toString (estimateContentSize schema) ++ " chars)",
       schemaId := schema.id }]
   else [])
  ++ (match config.mode with
    | some m =>
      if m != "" && !(m == "global" || m == "workspace") then
        [{ etype := "invalid_config", severity := some "error",
           message := "Invalid mode: " ++ m, schemaId := schema.id }]
      else []
    | none => [])
  ++ (match config.xmlTag with
    | some t =>
      if t != "" && !xmlTagOk t then
        [{ etype := "invalid_config", severity := some "error",
           message := "Invalid XML tag: " ++ t, schemaId := schema.id }]
      else []
    | none => [])

/-- Checker `validateCopilotFeatures(config, schema)`: priority range,
review type enumeration, scope enumeration. -/
def validateCopilotFeatures (config : PlatformConfig) (schema : Schema) :
    List VError :=
  (match config.priority with
    | some p =>
      if p.truthy && (p.ltNum 1 || p.gtNum 10) then
        [{ etype := "invalid_config", severity := some "error",
           message := "Priority must be between 1-10, got: " ++ p.render,
           schemaId := schema.id }]
      else []
    | none => [])
  ++ (match config.reviewType with
    | some rt =>
      if rt != ""
          && !(rt == "security" || rt == "performance" || rt == "code-quality"
               || rt == "style" || rt == "general") then
        [{ etype := "invalid_config", severity := some "error",
           message := "Invalid review type: " ++ rt, schemaId := schema.id }]
      else []
    | none => [])
  ++ (match config.scope with
    | some sc =>
      if sc != "" && !(sc == "repository" || sc == "organization") then
        [{ etype := "invalid_config", severity := some "error",
           message := "Invalid scope: " ++ sc, schemaId := schema.id }]
      else []
    | none => [])

/-- Checker `validateGenericFeatures(config, schema)`: flags a platform
declaring nothing beyond `compatible: true`. -/
def validateGenericFeatures (config : PlatformConfig) (schema : Schema) :
    List VError :=
  if config.declaredKeys.length == 1 && config.compatible then
    [{ etype := "minimal_config", severity := some "info",
       message := "Platform has minimal configuration (compatible only)",
       schemaId := schema.id }]
  else []

/-- Checker `validatePlatformFeatures(platform, config, schema)`: dispatch
on the platform name with a generic fallback. -/
def validatePlatformFeatures (platform : String) (config : PlatformConfig)
    (schema : Schema) : List VError :=
  if platform == "claude-code" then validateClaudeFeatures config schema
  else if platform == "cursor" then validateCursorFeatures config schema
  else if platform == "windsurf" then validateWindsurfFeatures config schema
  else if platform == "github-copilot" then validateCopilotFeatures config schema
  else validateGenericFeatures config schema

/-- Checker `checkCrossPlatformIssues(schema)`: Windsurf truncation risk
and conflicting cursor activation patterns. -/
def checkCrossPlatformIssues (schema : Schema) : List VError :=
  (if windsurfCompatible schema && estimateContentSize schema > 6000 then
    [{ etype := "cross_platform_issue", severity := some "warning",
       message := "Content may be truncated on Windsurf due to character limit" }]
   else [])
  ++ (match (schema.platforms.getD []).find? (fun pc => pc.1 == "cursor") with
    | some pc =>
      if pc.2.activation == some "always" && pc.2.globs != none then
        [{ etype := "cross_platform_issue", severity := some "warning",
           message := "Always activation with globs may cause conflicts" }]
      else []
    | none => [])

/-- Per-platform entry of a schema compatibility result. -/
structure PlatRes where
  compatible : Bool
  issues : List VError
deriving DecidableEq, Repr

/-- Per-document compatibility result of `checkSchemaCompatibility`. -/
structure SchemaCompat where
  id : Option String
  platforms : List (String × PlatRes)
  issues : List VError
  score : Nat
deriving DecidableEq, Repr

/-- Number of declared platforms (`Object.keys(schema.platforms || {}).length`). -/
def totalPlatforms (schema : Schema) : Nat :=
  (schema.platforms.getD []).length

/-- Number of declared platforms with `compatible === true`. -/
def compatiblePlatforms (schema : Schema) : Nat :=
  ((schema.platforms.getD []).filter (fun pc => pc.2.compatible)).length

/-- Checker `checkSchemaCompatibility(schema)`.  The score
`Math.round((compatiblePlatforms / totalPlatforms) * 100)` is modelled by
round-half-up on the exact ratio, `(200 * c + t) / (2 * t)` in natural
division; see the header note on IEEE-754 agreement. -/
def checkSchemaCompatibility (schema : Schema) : SchemaCompat :=
  let entries := schema.platforms.getD []
  let t := totalPlatforms schema
  let c := compatiblePlatforms schema
  { id := schema.id,
    platforms :=
      entries.map (fun pc =>
        (pc.1,
         { compatible := pc.2.compatible,
           issues :=
             if pc.2.compatible then validatePlatformFeatures pc.1 pc.2 schema
             else [] })),
    issues := checkCrossPlatformIssues schema,
    score := if t > 0 then (200 * c + t) / (2 * t) else 0 }

/-!  Concrete instances used by closed statements and witnesses. -/

/-- Compiled JSON-Schema validator under which every document is
structurally valid.  The properties checked below (cycle errors, platform
rules, relationship errors, summary counts) are independent of the
structural validator, which only contributes `schema_validation` entries
to the error list. -/
def svNone : Schema → List VError := fun _ => []

/-- Two-file corpus whose `requires` edges form the two-cycle a ⇄ b. -/
def fsCycle : FileSys := fun p =>
  if p == "a.md" then .ok "---\nid: a\nrequires: [b]\n---\nbody a"
  else if p == "b.md" then .ok "---\nid: b\nrequires: [a]\n---\nbody b"
  else .error "ENOENT"

/-- Count of `cyclic_dependency` errors in each result of a batch. -/
def cyclicCounts (out : VFilesOut) : List Nat :=
  out.results.map
    (fun r => (r.errors.filter (fun e => e.etype == "cyclic_dependency")).length)

/-- A `github-copilot` platform configuration declaring `compatible: true`
and the given numeric priority. -/
def copilotCfg (p : Int) : PlatformConfig :=
  { compatible := true, priority := some (.num p),
    declaredKeys := ["compatible", "priority"] }

/-- The `invalid_priority` error emitted by the SchemaValidator rule. -/
def copilotPriorityErr : VError :=
  { etype := "invalid_priority", severity := some "error",
    path := some "platforms.github-copilot.priority",
    message := "Priority must be between 1 and 10" }

/-- The `invalid_config` issue emitted by the checker rule for a numeric
priority `p`. -/
def copilotPriorityIssue (p : Int) (schema : Schema) : VError :=
  { etype := "invalid_config", severity := some "error",
    message := "Priority must be between 1-10, got: " ++ toString p,
    schemaId := schema.id }

/-- Cursor configuration with auto-attachment and a present-but-empty
`globs` array. -/
def cursorCfgEmptyGlobs : PlatformConfig :=
  { compatible := true, activation := some "auto-attached", globs := some [],
    declaredKeys := ["compatible", "activation", "globs"] }

/-- The `missing_dependency` error added for an absent required ID. -/
def missingDepErr (rid : String) : VError :=
  { etype := "missing_dependency", severity := some "error",
    path := some "requires",
    message := "Required schema not found: " ++ rid }

/-- Document declaring a single compatible `windsurf` platform and a body
of `n` characters, used at the size boundary. -/
def windsurfDoc (n : Nat) : Schema :=
  { platforms := some [("windsurf", { compatible := true,
                                      declaredKeys := ["compatible"] })],
    mdContent := String.mk (List.replicate n 'a') }

/-- Filesystem with one parsable file and one file without a frontmatter
block. -/
def fsMixed : FileSys := fun p =>
  if p == "good.md" then .ok "---\nid: good\n---\nbody"
  else if p == "bad.md" then .ok "no frontmatter here"
  else .error "ENOENT"

/-- Batch for the second-pass witness: `x` requires a present document and
an absent one, and suggests an absent one. -/
def relSchemaX : Schema :=
  { id := some "x", requires := some ["y", "z"], suggests := some ["w"] }

/-- First-pass record for `relSchemaX` as a valid result. -/
def relResultX : VResult :=
  { valid := true, filePath := "x.md", schema := some relSchemaX,
    errors := [], warnings := [] }

/-- ID map containing only the document `y`. -/
def relAllY : AllSchemas := [(some "y", {}, "y.md")]

/-- Document with overlapping `requires` and `conflicts` lists (shared
IDs `a` and `c`, with a repeated `a`). -/
def conflictSchema : Schema :=
  { id := some "s", requires := some ["a", "b", "a", "c"],
    conflicts := some ["c", "a"] }

/-!  Theorems settling the claims. -/

/-- C9: for the cursor configuration `{compatible: true, activation:
"auto-attached", globs: []}` the SchemaValidator rule
(`validatePlatformConfig`, case `cursor`) emits no issue (an empty array
is truthy, so `!config.globs` fails), while the CompatibilityChecker rule
(`validateCursorFeatures`) emits exactly one `error`-severity issue of
type `missing_requirement`; the two independently implemented cursor rule
tables disagree on this input. -/
theorem C9_cursor_rule_divergence :
    validatePlatformConfig "cursor" cursorCfgEmptyGlobs = []
    ∧ (validateCursorFeatures cursorCfgEmptyGlobs {}).map
        (fun e => (e.etype, e.severity))
      = [("missing_requirement", some "error")] := by
  decide

/-- C1 counterexample: in the two-document batch where `a` requires `b`
and `b` requires `a`, validated together by `validateFiles` in the order
`[a, b]`, the per-document counts of `cyclic_dependency` errors are
`[0, 1]`: the first document's result contains none, refuting the claim
that every document in the cycle carries exactly one such error. -/
theorem C1_cycle_counterexample :
    cyclicCounts (validateFiles svNone fsCycle [] ["a.md", "b.md"]).1 = [0, 1]
    ∧ ¬ ∀ n ∈ cyclicCounts (validateFiles svNone fsCycle [] ["a.md", "b.md"]).1,
        n = 1 := by
  decide

/-- C1 amended: in a two-document `requires` cycle validated together by
`validateFiles`, only the document validated second reports a
`cyclic_dependency` error (exactly one); the document validated first
reports none, because its partner's edges are not yet in the incrementally
built dependency map when it is checked.  This holds in either order. -/
theorem C1_cycle_second_only :
    cyclicCounts (validateFiles svNone fsCycle [] ["a.md", "b.md"]).1 = [0, 1]
    ∧ cyclicCounts (validateFiles svNone fsCycle [] ["b.md", "a.md"]).1 = [0, 1] := by
  decide

/-- C3 counterexample: a `github-copilot` configuration with
`compatible: true` and `priority: 0` — a value outside `[1, 10]` — passes
both the SchemaValidator rule and the checker rule without any issue,
because `0` is falsy and the guard `config.priority && ...` skips the
range check. -/
theorem C3_priority_zero_counterexample :
    ((0 : Int) < 1)
    ∧ validatePlatformConfig "github-copilot" (copilotCfg 0) = []
    ∧ validateCopilotFeatures (copilotCfg 0) {} = [] := by
  decide

/-- C3 amended: for a compatible `github-copilot` configuration with
numeric priority `p`, both rules emit exactly one `error`-severity issue
precisely when `p` is nonzero (truthy) and outside `[1, 10]`; in
particular `p = 0` emits nothing and every `p` within `[1, 10]` emits
nothing. -/
theorem C3_priority_range (p : Int) :
    validatePlatformConfig "github-copilot" (copilotCfg p)
      = (if p ≠ 0 ∧ (p < 1 ∨ 10 < p) then [copilotPriorityErr] else [])
    ∧ validateCopilotFeatures (copilotCfg p) {}
      = (if p ≠ 0 ∧ (p < 1 ∨ 10 < p) then [copilotPriorityIssue p {}] else []) := by
  have hL : validatePlatformConfig "github-copilot" (copilotCfg p)
      = (if ((JVal.num p).truthy && ((JVal.num p).ltNum 1 || (JVal.num p).gtNum 10)) = true
         then [copilotPriorityErr] else []) := rfl
  have hR : validateCopilotFeatures (copilotCfg p) {}
      = (if ((JVal.num p).truthy && ((JVal.num p).ltNum 1 || (JVal.num p).gtNum 10)) = true
         then [copilotPriorityIssue p {}] else []) ++ [] ++ [] := rfl
  have heq : (((JVal.num p).truthy && ((JVal.num p).ltNum 1 || (JVal.num p).gtNum 10)) = true)
      ↔ (p ≠ 0 ∧ (p < 1 ∨ 10 < p)) := by
    simp [JVal.truthy, JVal.ltNum, JVal.gtNum]
  rw [hL, hR]
  by_cases hc : p ≠ 0 ∧ (p < 1 ∨ 10 < p)
  · rw [if_pos (heq.mpr hc), if_pos (heq.mpr hc), if_pos hc, if_pos hc]
    simp
  · rw [if_neg (fun h => hc (heq.mp h)), if_neg (fun h => hc (heq.mp h)),
      if_neg hc, if_neg hc]
    simp

/-- C2 counterexample: a document declaring no platforms has score `0`,
yet every (vacuously, zero) declared platform is compatible, so the
equivalence `score = 100 ↔ all declared platforms compatible` fails on
it. -/
theorem C2_empty_platforms_counterexample :
    ¬ (((checkSchemaCompatibility {}).score = 100) ↔
        ∀ pc ∈ (({} : Schema).platforms.getD []), pc.2.compatible = true) := by
  decide

/-- C2 amended: the compatibility score is the half-up rounding of
`compatiblePlatforms / totalPlatforms * 100` (`0` with no platforms), lies
within `[0, 100]`, and equals `100` exactly when at least one platform is
declared and `199 * total ≤ 200 * compatible`; for documents with fewer
than 200 declared platforms the latter is equivalent to every declared
platform being compatible, but e.g. 199 compatible platforms out of 200
also round to a score of 100. -/
theorem C2_score_bounds (s : Schema) :
    (checkSchemaCompatibility s).score
      = (if 0 < totalPlatforms s then
          (200 * compatiblePlatforms s + totalPlatforms s)
            / (2 * totalPlatforms s)
         else 0)
    ∧ (checkSchemaCompatibility s).score ≤ 100
    ∧ ((checkSchemaCompatibility s).score = 100 ↔
        0 < totalPlatforms s
        ∧ 199 * totalPlatforms s ≤ 200 * compatiblePlatforms s) := by
  have hct : compatiblePlatforms s ≤ totalPlatforms s :=
    List.length_filter_le _ _
  have hsc : (checkSchemaCompatibility s).score
      = (if 0 < totalPlatforms s then
          (200 * compatiblePlatforms s + totalPlatforms s)
            / (2 * totalPlatforms s)
         else 0) := rfl
  refine ⟨hsc, ?_, ?_⟩
  · rw [hsc]
    rcases Nat.eq_zero_or_pos (totalPlatforms s) with h | h
    · simp [h]
    · have h2 : 0 < 2 * totalPlatforms s := by omega
      have hlt : (200 * compatiblePlatforms s + totalPlatforms s)
          / (2 * totalPlatforms s) < 101 :=
        (Nat.div_lt_iff_lt_mul h2).mpr (by omega)
      rw [if_pos h]
      omega
  · rw [hsc]
    rcases Nat.eq_zero_or_pos (totalPlatforms s) with h | h
    · rw [if_neg (by omega)]
      constructor
      · intro he
        exact absurd he (by omega)
      · intro hc
        exact absurd hc.1 (by omega)
    · have h2 : 0 < 2 * totalPlatforms s := by omega
      have hdiv : 100 ≤ (200 * compatiblePlatforms s + totalPlatforms s)
          / (2 * totalPlatforms s)
          ↔ 100 * (2 * totalPlatforms s)
            ≤ 200 * compatiblePlatforms s + totalPlatforms s :=
        Nat.le_div_iff_mul_le h2
      have hlt : (200 * compatiblePlatforms s + totalPlatforms s)
          / (2 * totalPlatforms s) < 101 :=
        (Nat.div_lt_iff_lt_mul h2).mpr (by omega)
      rw [if_pos h]
      constructor
      · intro he
        have := hdiv.mp (by omega)
        exact ⟨h, by omega⟩
      · intro hc
        have := hdiv.mpr (by omega)
        omega

/-- Repeated insertion of the same key and value leaves the dependency map
unchanged after the first insertion (`Map.set` overwrites in place). -/
theorem depSet_idem (m : DepMap) (k : Option String) (v : List String) :
    depSet (depSet m k v) k v = depSet m k v := by
  induction m with
  | nil => simp [depSet]
  | cons hd tl ih =>
    rcases hd with ⟨k', v'⟩
    by_cases h : k' == k
    · simp only [depSet, if_pos h]
      simp [depSet]
    · simp only [depSet, if_neg h]
      rw [ih]

/-- Running `hasCyclicDependencies` a second time for the same document on
the map the first run produced returns the same flag and the same map. -/
theorem hasCyclicDependencies_stable (dm : DepMap) (s : Schema) :
    hasCyclicDependencies (hasCyclicDependencies dm s).2 s
      = hasCyclicDependencies dm s := by
  simp only [hasCyclicDependencies, depSet_idem]

/-- C8: validating the same document twice in immediate succession on the
same validator instance (no other documents validated in between) yields
two structurally identical ValidationResults — same `valid` flag, errors
and warnings — even though the first call mutates the instance's
`dependencies` map: re-inserting the same key and edges leaves the map as
the first call left it, so the second cycle check agrees. -/
theorem C8_validate_idempotent (sv : Schema → List VError) (dm : DepMap)
    (s : Schema) (path : String) :
    validateSchema sv (validateSchema sv dm s path).2 s path
      = validateSchema sv dm s path := by
  have h2 : (validateSchema sv dm s path).2 = (hasCyclicDependencies dm s).2 := rfl
  have hbr : validateBusinessRules (hasCyclicDependencies dm s).2 s
      = validateBusinessRules dm s := by
    simp only [validateBusinessRules, hasCyclicDependencies_stable]
  rw [h2]
  simp only [validateSchema, hbr]

/-- Membership in the spread of a JavaScript `Set`: an element is listed
exactly when it occurs in the source list and not among the already seen
elements. -/
theorem jsSetList_mem (l : List String) (seen : List String) (x : String) :
    x ∈ jsSetList l seen ↔ x ∈ l ∧ x ∉ seen := by
  induction l generalizing seen with
  | nil => simp [jsSetList]
  | cons hd tl ih =>
    simp only [jsSetList]
    by_cases h : seen.contains hd
    · rw [if_pos h, ih]
      have hmem : hd ∈ seen := by simpa [List.contains] using h
      simp only [List.mem_cons]
      constructor
      · rintro ⟨hx, hns⟩
        exact ⟨Or.inr hx, hns⟩
      · rintro ⟨hx | hx, hns⟩
        · exact absurd (hx ▸ hmem) hns
        · exact ⟨hx, hns⟩
    · rw [if_neg h]
      have hmem : hd ∉ seen := by simpa [List.contains] using h
      simp only [List.mem_cons, ih]
      constructor
      · rintro (hx | ⟨hx, hns⟩)
        · exact ⟨Or.inl hx, hx ▸ hmem⟩
        · exact ⟨Or.inr hx, fun hc => hns (Or.inr hc)⟩
      · rintro ⟨hx | hx, hns⟩
        · exact Or.inl hx
        · by_cases hxh : x = hd
          · exact Or.inl hxh
          · exact Or.inr ⟨hx, fun hc => by
              rcases hc with h1 | h1
              · exact hxh h1
              · exact hns h1⟩

/-- The spread of a JavaScript `Set` lists no element twice. -/
theorem jsSetList_nodup (l : List String) (seen : List String) :
    (jsSetList l seen).Nodup := by
  induction l generalizing seen with
  | nil => simp [jsSetList]
  | cons hd tl ih =>
    simp only [jsSetList]
    by_cases h : seen.contains hd
    · rw [if_pos h]
      exact ih seen
    · rw [if_neg h]
      rw [List.nodup_cons]
      refine ⟨fun hmem => ?_, ih (hd :: seen)⟩
      rcases (jsSetList_mem tl (hd :: seen) hd).mp hmem with ⟨_, hns⟩
      exact hns (List.mem_cons_self _ _)

/-- C7: when `requires` and `conflicts` share at least one ID,
`findRelationshipConflicts` yields exactly one `error`-severity
`conflicting_relationships` error whose message names exactly the IDs in
the intersection of the two lists, each once and no others; when the two
lists are disjoint (empty intersection) no error is emitted. -/
theorem C7_conflicting_relationships (s : Schema) :
    (conflictIntersection s).Nodup
    ∧ (∀ x, x ∈ conflictIntersection s ↔
        x ∈ s.requires.getD [] ∧ x ∈ s.conflicts.getD [])
    ∧ (conflictIntersection s ≠ [] →
        findRelationshipConflicts s
          = [{ etype := "conflicting_relationships", severity := some "error",
               path := some "requires/conflicts",
               message := "Schemas cannot be both required and conflicted: "
                          ++ String.intercalate ", " (conflictIntersection s) }])
    ∧ (conflictIntersection s = [] → findRelationshipConflicts s = []) := by
  refine ⟨(jsSetList_nodup _ _).filter _, fun x => ?_, fun hne => ?_, fun he => ?_⟩
  · rw [conflictIntersection, List.mem_filter, jsSetList_mem]
    simp [List.contains]
  · rw [findRelationshipConflicts, if_pos (by
      simpa [Nat.pos_iff_ne_zero, List.length_eq_zero] using hne)]
  · rw [findRelationshipConflicts]
    rw [if_neg (by simp [he])]

/-- C7 witness: for the document requiring `[a, b, a, c]` and conflicting
with `[c, a]`, the intersection is `[a, c]` (the repeated `a` named once)
and validation emits the single `conflicting_relationships` error naming
exactly `a, c`. -/
theorem C7_conflicting_relationships_witness :
    conflictIntersection conflictSchema = ["a", "c"]
    ∧ findRelationshipConflicts conflictSchema
      = [{ etype := "conflicting_relationships", severity := some "error",
           path := some "requires/conflicts",
           message := "Schemas cannot be both required and conflicted: a, c" }] := by
  refine ⟨by decide, ?_⟩
  have h := (C7_conflicting_relationships conflictSchema).2.2.1 (by decide)
  rw [h]
  decide

/-- No platform-rule error of the SchemaValidator carries the type
`windsurf_size_warning`. -/
theorem validatePlatformConfig_not_size (platform : String)
    (config : PlatformConfig) :
    ∀ e ∈ validatePlatformConfig platform config,
      e.etype ≠ "windsurf_size_warning" := by
  intro e he
  unfold validatePlatformConfig at he
  repeat' split at he
  all_goals simp_all

/-- No business-rule error carries the type `windsurf_size_warning`. -/
theorem validateBusinessRules_not_size (dm : DepMap) (s : Schema) :
    ∀ e ∈ (validateBusinessRules dm s).1,
      e.etype ≠ "windsurf_size_warning" := by
  intro e he
  simp only [validateBusinessRules, List.mem_append] at he
  rcases he with ((((h | h) | h) | h) | h)
  · split at h <;> simp_all
  · rcases List.mem_flatMap.mp h with ⟨pc, _, hpc⟩
    exact validatePlatformConfig_not_size pc.1 pc.2 e hpc
  · repeat' split at h
    all_goals simp_all
  · repeat' split at h
    all_goals simp_all
  · simp only [findRelationshipConflicts] at h
    split at h <;> simp_all

/-- C4: for a document with a compatible `windsurf` platform entry,
validation puts at least one warning of type `windsurf_size_warning` in
the result whenever the estimated size `content.length + title.length +
200` strictly exceeds 6000, and no warning of that type when the estimate
is exactly 6000 (the comparison is strict). -/
theorem C4_windsurf_size_boundary (sv : Schema → List VError) (dm : DepMap)
    (s : Schema) (path : String) (hw : windsurfCompatible s = true) :
    (contentEstimate s > 6000 →
      ∃ e ∈ (validateSchema sv dm s path).1.warnings,
        e.etype = "windsurf_size_warning")
    ∧ (contentEstimate s = 6000 →
      ∀ e ∈ (validateSchema sv dm s path).1.warnings,
        e.etype ≠ "windsurf_size_warning") := by
  have hwarn : (validateSchema sv dm s path).1.warnings
      = (validateBusinessRules dm s).1.filter
          (fun e => e.severity == some "warning")
        ++ (validateContent s).filter
          (fun e => e.severity == some "warning") := rfl
  constructor
  · intro hgt
    rw [hwarn]
    refine ⟨{ etype := "windsurf_size_warning", severity := some "warning",
              path := some "content",
              message := "Content may be too large for Windsurf (estimated "
                         ++ toString (contentEstimate s)
                         ++ " chars, limit 6000)" }, ?_, rfl⟩
    apply List.mem_append_right
    rw [List.mem_filter]
    refine ⟨?_, rfl⟩
    simp only [validateContent]
    apply List.mem_append_right
    rw [if_pos (by simp [hw, hgt])]
    exact List.mem_singleton_self _
  · intro heq e he
    rw [hwarn] at he
    rcases List.mem_append.mp he with h | h
    · exact validateBusinessRules_not_size dm s e (List.mem_filter.mp h).1
    · have hc := (List.mem_filter.mp h).1
      simp only [validateContent, heq] at hc
      have h4 : (decide ((6000 : Nat) > 6000) && windsurfCompatible s) = false := by
        simp
      rw [h4] at hc
      simp only [Bool.false_eq_true, if_false, List.append_nil] at hc
      repeat' split at hc
      all_goals try simp only [List.mem_append, List.mem_singleton,
        List.not_mem_nil, or_false, false_or] at hc
      all_goals
        first
          | exact hc.elim
          | (rcases hc with ((rfl | rfl) | rfl) <;> decide)

/-- C4 witness: the single-platform compatible-windsurf document with a
5801-character body (estimate 6001) gets a `windsurf_size_warning`, and
the one with a 5800-character body (estimate exactly 6000) gets none. -/
theorem C4_windsurf_size_boundary_witness :
    (∃ e ∈ (validateSchema svNone [] (windsurfDoc 5801) "w.md").1.warnings,
        e.etype = "windsurf_size_warning")
    ∧ (∀ e ∈ (validateSchema svNone [] (windsurfDoc 5800) "w.md").1.warnings,
        e.etype ≠ "windsurf_size_warning") := by
  have hmd1 : (windsurfDoc 5801).mdContent = String.mk (List.replicate 5801 'a') := rfl
  have hmd2 : (windsurfDoc 5800).mdContent = String.mk (List.replicate 5800 'a') := rfl
  have ht1 : (windsurfDoc 5801).title = none := rfl
  have ht2 : (windsurfDoc 5800).title = none := rfl
  have h1 : contentEstimate (windsurfDoc 5801) = 6001 := by
    unfold contentEstimate
    rw [hmd1, ht1, String.length_mk, List.length_replicate]
    simp
  have h2 : contentEstimate (windsurfDoc 5800) = 6000 := by
    unfold contentEstimate
    rw [hmd2, ht2, String.length_mk, List.length_replicate]
    simp
  constructor
  · exact (C4_windsurf_size_boundary svNone [] (windsurfDoc 5801) "w.md"
      rfl).1 (by omega)
  · exact (C4_windsurf_size_boundary svNone [] (windsurfDoc 5800) "w.md"
      rfl).2 h2

/-- C5: in the second pass of `validateFiles`, a document that was valid
after the first pass has the relationship errors appended to its error
list; it stays valid exactly when every `requires` target is present in
the batch ID map; each absent required ID contributes a
`missing_dependency` error and forces invalidity; absent `suggests` /
`supersedes` targets only ever contribute `warning`-severity issues; and
the document remains valid whenever all newly added issues are warnings. -/
theorem C5_second_pass_relationships (all : AllSchemas) (r : VResult)
    (s : Schema) (hv : r.valid = true) (hs : r.schema = some s) :
    (secondPassOne all r).errors = r.errors ++ validateRelationships s all
    ∧ ((secondPassOne all r).valid = true ↔
        ∀ rid ∈ s.requires.getD [], allHas all rid = true)
    ∧ (∀ rid ∈ s.requires.getD [], allHas all rid = false →
        missingDepErr rid ∈ validateRelationships s all
        ∧ (secondPassOne all r).valid = false)
    ∧ (∀ e ∈ validateRelationships s all,
        (e.etype = "missing_suggestion" ∨ e.etype = "missing_superseded") →
          e.severity = some "warning")
    ∧ ((∀ e ∈ validateRelationships s all, e.severity = some "warning") →
        (secondPassOne all r).valid = true) := by
  have hsplit : validateRelationships s all
      = ((s.requires.getD []).filter (fun rid => !allHas all rid)).map
          missingDepErr
        ++ ((s.suggests.getD []).filter (fun sid => !allHas all sid)).map
          (fun sid =>
            { etype := "missing_suggestion", severity := some "warning",
              path := some "suggests",
              message := "Suggested schema not found: " ++ sid })
        ++ ((s.supersedes.getD []).filter (fun sid => !allHas all sid)).map
          (fun sid =>
            { etype := "missing_superseded", severity := some "warning",
              path := some "supersedes",
              message := "Superseded schema not found: " ++ sid }) := rfl
  have hresult : secondPassOne all r
      = (if (validateRelationships s all).length > 0 then
          { r with errors := r.errors ++ validateRelationships s all,
                   valid := (validateRelationships s all).all
                     (fun e => e.severity != some "error") }
         else r) := by
    simp only [secondPassOne, hs, hv, if_true]
  have hall : ((validateRelationships s all).all
        (fun e => e.severity != some "error") = true)
      ↔ ∀ rid ∈ s.requires.getD [], allHas all rid = true := by
    rw [hsplit]
    simp only [List.all_append, Bool.and_eq_true, List.all_eq_true]
    constructor
    · rintro ⟨⟨hA, _⟩, _⟩ rid hrid
      by_contra hfalse
      have hmiss : allHas all rid = false := by
        revert hfalse
        cases allHas all rid <;> simp
      have hmem : missingDepErr rid
          ∈ ((s.requires.getD []).filter (fun rid => !allHas all rid)).map
              missingDepErr :=
        List.mem_map_of_mem _ (List.mem_filter.mpr ⟨hrid, by simp [hmiss]⟩)
      have := hA _ hmem
      simp [missingDepErr] at this
    · intro hpres
      have hAnil : (s.requires.getD []).filter (fun rid => !allHas all rid)
          = [] :=
        List.filter_eq_nil_iff.mpr (fun rid hrid => by simp [hpres rid hrid])
      refine ⟨⟨?_, ?_⟩, ?_⟩
      · simp [hAnil]
      · intro e he
        rcases List.mem_map.mp he with ⟨x, _, rfl⟩
        rfl
      · intro e he
        rcases List.mem_map.mp he with ⟨x, _, rfl⟩
        rfl
  refine ⟨?_, ?_, ?_, ?_, ?_⟩
  · rw [hresult]
    by_cases hlen : (validateRelationships s all).length > 0
    · rw [if_pos hlen]
    · rw [if_neg hlen]
      have : validateRelationships s all = [] := by
        cases hrel : validateRelationships s all with
        | nil => rfl
        | cons a l => rw [hrel] at hlen; simp at hlen
      rw [this, List.append_nil]
  · rw [hresult]
    by_cases hlen : (validateRelationships s all).length > 0
    · rw [if_pos hlen]
      exact hall
    · rw [if_neg hlen]
      have hrel : validateRelationships s all = [] := by
        cases hrel : validateRelationships s all with
        | nil => rfl
        | cons a l => rw [hrel] at hlen; simp at hlen
      have hAnil : ((s.requires.getD []).filter
          (fun rid => !allHas all rid)).map missingDepErr = [] := by
        have := hsplit.symm.trans hrel
        rcases List.append_eq_nil.mp this with ⟨h1, _⟩
        rcases List.append_eq_nil.mp h1 with ⟨h2, _⟩
        exact h2
      constructor
      · intro _ rid hrid
        by_contra hfalse
        have hmiss : allHas all rid = false := by
          revert hfalse
          cases allHas all rid <;> simp
        have : missingDepErr rid
            ∈ ((s.requires.getD []).filter (fun rid => !allHas all rid)).map
                missingDepErr :=
          List.mem_map_of_mem _ (List.mem_filter.mpr ⟨hrid, by simp [hmiss]⟩)
        rw [hAnil] at this
        exact List.not_mem_nil _ this
      · intro _
        exact hv
  · intro rid hrid hmiss
    have hmemA : missingDepErr rid
        ∈ ((s.requires.getD []).filter (fun rid => !allHas all rid)).map
            missingDepErr :=
      List.mem_map_of_mem _ (List.mem_filter.mpr ⟨hrid, by simp [hmiss]⟩)
    have hmemRel : missingDepErr rid ∈ validateRelationships s all := by
      rw [hsplit]
      exact List.mem_append_left _ (List.mem_append_left _ hmemA)
    refine ⟨hmemRel, ?_⟩
    rw [hresult, if_pos (List.length_pos.mpr (List.ne_nil_of_mem hmemRel))]
    show (validateRelationships s all).all (fun e => e.severity != some "error")
        = false
    by_contra hfalse
    have htrue : (validateRelationships s all).all
        (fun e => e.severity != some "error") = true := by
      revert hfalse
      cases (validateRelationships s all).all (fun e => e.severity != some "error")
        <;> simp
    have := hall.mp htrue rid hrid
    rw [this] at hmiss
    exact Bool.noConfusion hmiss
  · intro e he hty
    rw [hsplit] at he
    rcases List.mem_append.mp he with h1 | h1
    · rcases List.mem_append.mp h1 with h2 | h2
      · rcases List.mem_map.mp h2 with ⟨x, _, rfl⟩
        rcases hty with h | h <;> simp [missingDepErr] at h
      · rcases List.mem_map.mp h2 with ⟨x, _, rfl⟩
        rfl
    · rcases List.mem_map.mp h1 with ⟨x, _, rfl⟩
      rfl
  · intro hwarn
    rw [hresult]
    by_cases hlen : (validateRelationships s all).length > 0
    · rw [if_pos hlen]
      show (validateRelationships s all).all
          (fun e => e.severity != some "error") = true
      refine List.all_eq_true.mpr (fun e he => ?_)
      rw [hwarn e he]
      rfl
    · rw [if_neg hlen]
      exact hv

/-- C5 witness: with the batch map containing only `y`, the valid document
`x` (requires `[y, z]`, suggests `[w]`) gains the `missing_dependency`
error for `z`, becomes invalid, and the absent suggestion `w` only ever
yields a warning-severity issue. -/
theorem C5_second_pass_relationships_witness :
    (secondPassOne relAllY relResultX).errors
      = validateRelationships relSchemaX relAllY
    ∧ missingDepErr "z" ∈ validateRelationships relSchemaX relAllY
    ∧ (secondPassOne relAllY relResultX).valid = false
    ∧ (∀ e ∈ validateRelationships relSchemaX relAllY,
        (e.etype = "missing_suggestion" ∨ e.etype = "missing_superseded") →
          e.severity = some "warning") := by
  have h := C5_second_pass_relationships relAllY relResultX relSchemaX rfl rfl
  have hz := h.2.2.1 "z" (by decide) (by decide)
  exact ⟨h.1, hz.1, hz.2, h.2.2.2.1⟩

/-- The first pass yields one result per input file. -/
theorem firstPass_length (sv : Schema → List VError) (fs : FileSys) :
    ∀ (paths : List String) (dm : DepMap) (all : AllSchemas),
      (firstPass sv fs dm all paths).1.length = paths.length := by
  intro paths
  induction paths with
  | nil => intro dm all; rfl
  | cons p rest ih =>
    intro dm all
    simp only [firstPass, List.length_cons]
    rw [ih]

/-- A file whose read or parse throws yields exactly the `parse_error`
result in the first pass, at its own position. -/
theorem firstPass_parse_error (sv : Schema → List VError) (fs : FileSys) :
    ∀ (paths : List String) (dm : DepMap) (all : AllSchemas),
      List.Forall₂
        (fun path r => ∀ msg, readParse fs path = .error msg →
          r = parseErrorResult path msg)
        paths (firstPass sv fs dm all paths).1 := by
  intro paths
  induction paths with
  | nil => intro dm all; exact List.Forall₂.nil
  | cons p rest ih =>
    intro dm all
    refine List.Forall₂.cons ?_ (ih _ _)
    intro msg hmsg
    simp only [validateFile, hmsg]

/-- C6: for every filesystem and every list of N file paths,
`validateFiles` returns exactly N result entries (per-file failures are
data, never exceptions), its summary reports `total = N` with `valid` and
`invalid` counting exactly the `valid: true` / `valid: false` entries
(`valid + invalid = N`), and every file whose read or parse throws is
represented by a `valid: false` result carrying the single `parse_error`
entry. -/
theorem C6_batch_shape (sv : Schema → List VError) (fs : FileSys)
    (dm : DepMap) (paths : List String) :
    ((validateFiles sv fs dm paths).1.results.length = paths.length)
    ∧ (validateFiles sv fs dm paths).1.summary.total = paths.length
    ∧ (validateFiles sv fs dm paths).1.summary.valid
      = ((validateFiles sv fs dm paths).1.results.filter
          (fun r => r.valid)).length
    ∧ (validateFiles sv fs dm paths).1.summary.invalid
      = ((validateFiles sv fs dm paths).1.results.filter
          (fun r => !r.valid)).length
    ∧ (validateFiles sv fs dm paths).1.summary.valid
        + (validateFiles sv fs dm paths).1.summary.invalid = paths.length
    ∧ List.Forall₂
        (fun path r => ∀ msg, readParse fs path = .error msg →
          r = parseErrorResult path msg)
        paths (validateFiles sv fs dm paths).1.results := by
  have hres : (validateFiles sv fs dm paths).1.results
      = (firstPass sv fs dm [] paths).1.map
          (secondPassOne (firstPass sv fs dm [] paths).2.1) := rfl
  have hlen : (validateFiles sv fs dm paths).1.results.length = paths.length := by
    rw [hres, List.length_map, firstPass_length]
  refine ⟨hlen, hlen, rfl, rfl, ?_, ?_⟩
  · have hsplit := List.length_eq_length_filter_add
      (l := (validateFiles sv fs dm paths).1.results) (fun r => r.valid)
    have hcongr : (validateFiles sv fs dm paths).1.results.filter
        (fun r => !r.valid)
        = (validateFiles sv fs dm paths).1.results.filter
          (fun r => !(fun r => r.valid) r) := rfl
    show ((validateFiles sv fs dm paths).1.results.filter
        (fun r => r.valid)).length
      + ((validateFiles sv fs dm paths).1.results.filter
        (fun r => !r.valid)).length = paths.length
    rw [hcongr, ← hsplit, hlen]
  · rw [hres, List.forall₂_map_right_iff]
    refine (firstPass_parse_error sv fs paths dm []).imp ?_
    intro path r hrel msg hmsg
    rw [hrel msg hmsg]
    rfl

/-- Every remainder produced by matching the leading whitespace-newline
part of the pattern is a suffix of the input. -/
theorem wsNlSplits_suffix : ∀ (cs r : List Char), r ∈ wsNlSplits cs → r <:+ cs := by
  intro cs
  induction cs with
  | nil =>
    intro r hr
    simp [wsNlSplits] at hr
  | cons c rest ih =>
    intro r hr
    simp only [wsNlSplits] at hr
    by_cases h : c == '\n'
    · rw [if_pos h] at hr
      rcases List.mem_append.mp hr with h1 | h1
      · exact (ih r h1).trans (List.suffix_cons c rest)
      · rw [List.mem_singleton.mp h1]
        exact List.suffix_cons c rest
    · rw [if_neg h] at hr
      by_cases h2 : wsChar c
      · rw [if_pos h2] at hr
        exact (ih r hr).trans (List.suffix_cons c rest)
      · rw [if_neg h2] at hr
        simp at hr

/-- When no suffix of the input matches the closing delimiter, the lazy
scan for the first capture group finds nothing. -/
theorem splitFM_none : ∀ (cs acc : List Char),
    (∀ r, r <:+ cs → closeSplits r = []) → splitFM acc cs = none := by
  intro cs
  induction cs with
  | nil => intro acc _; rfl
  | cons c cs' ih =>
    intro acc hcl
    have h0 : closeSplits (c :: cs') = [] := hcl _ (List.suffix_refl _)
    simp only [splitFM, h0, List.head?]
    exact ih _ (fun r hr => hcl r (hr.trans (List.suffix_cons c cs')))

/-- A nonempty result of `closeSplits` forces the input to start with a
newline and three dashes followed by a nonempty tail. -/
theorem closeSplits_shape (r : List Char) (h : closeSplits r ≠ []) :
    ∃ t, r = '\n' :: '-' :: '-' :: '-' :: t ∧ t ≠ [] := by
  unfold closeSplits at h
  split at h
  · rename_i t
    refine ⟨t, rfl, ?_⟩
    intro ht
    rw [ht] at h
    exact h rfl
  · exact absurd rfl h

/-- The substring search agrees with list infix. -/
theorem listHasSub_iff_occurs (pat : List Char) :
    ∀ l : List Char, listHasSub pat l = true ↔ pat <:+: l := by
  intro l
  induction l with
  | nil =>
    simp only [listHasSub, List.isEmpty_iff]
    constructor
    · intro h
      rw [h]
    · intro h
      exact List.eq_nil_of_infix_nil h
  | cons c rest ih =>
    simp only [listHasSub, Bool.or_eq_true, List.isPrefixOf_iff_prefix, ih,
      List.infix_cons_iff]

/-- When no suffix of the input matches the closing delimiter pattern, the
whole frontmatter regex fails. -/
theorem parseSplit_no_close (cs : List Char)
    (hcl : ∀ r, r <:+ cs → closeSplits r = []) : parseSplit cs = none := by
  unfold parseSplit
  split
  · rename_i r
    rw [List.findSome?_eq_none_iff]
    intro x hx
    apply splitFM_none
    intro r' hr'
    apply hcl
    have hxr : x <:+ r := wsNlSplits_suffix r x hx
    exact hr'.trans (hxr.trans ⟨['-', '-', '-'], rfl⟩)
  · rfl

/-- When the only occurrence of newline-dash-dash-dash in the input is its
final four characters (nothing after them), the frontmatter regex cannot
match: the closing delimiter needs a trailing newline. -/
theorem parseSplit_final_close (ys : List Char)
    (h : listHasSub ['\n', '-', '-', '-'] (ys ++ ['\n', '-', '-']) = false) :
    parseSplit (ys ++ ['\n', '-', '-', '-']) = none := by
  apply parseSplit_no_close
  intro r hr
  by_contra hne
  obtain ⟨t, rfl, htne⟩ := closeSplits_shape r hne
  obtain ⟨A, hA⟩ := hr
  rcases t.eq_nil_or_concat with rfl | ⟨t', c, rfl⟩
  · exact htne rfl
  simp only [List.concat_eq_append] at hA
  have hkey : (A ++ ['\n', '-', '-', '-'] ++ t') ++ [c]
      = (ys ++ ['\n', '-', '-']) ++ ['-'] := by
    simp only [List.append_assoc, List.cons_append, List.nil_append,
      List.singleton_append] at hA ⊢
    exact hA
  have h1 : A ++ ['\n', '-', '-', '-'] ++ t' = ys ++ ['\n', '-', '-'] := by
    have hd := congrArg List.dropLast hkey
    rw [List.dropLast_concat, List.dropLast_concat] at hd
    exact hd
  have htrue : listHasSub ['\n', '-', '-', '-'] (ys ++ ['\n', '-', '-']) = true :=
    (listHasSub_iff_occurs _ _).mpr ⟨A, t', h1⟩
  rw [htrue] at h
  exact Bool.noConfusion h

/-- C10: an input whose only `\n---` occurrence stands at the very end
with no newline after it fails `parseSchema` with the
frontmatter-not-found error (the closing delimiter of the regex requires
a trailing newline); in particular the exemplar with frontmatter `id: x`
throws, while the same input with one newline appended parses
successfully with `_content` equal to the empty string. -/
theorem C10_closing_delimiter_newline :
    (∀ ys : List Char,
      listHasSub ['\n', '-', '-', '-'] (ys ++ ['\n', '-', '-']) = false →
      parseSchema (String.mk (ys ++ ['\n', '-', '-', '-']))
        = .error "Invalid format: YAML frontmatter not found")
    ∧ parseSchema "---\nid: x\n---"
        = .error "Invalid format: YAML frontmatter not found"
    ∧ parseSchema "---\nid: x\n---\n"
        = .ok { id := some "x", mdContent := "" } := by
  refine ⟨?_, by rfl, by rfl⟩
  intro ys h
  have hsplit := parseSplit_final_close ys h
  unfold parseSchema
  rw [show (String.mk (ys ++ ['\n', '-', '-', '-'])).data
      = ys ++ ['\n', '-', '-', '-'] from rfl, hsplit]

/-- C10 witness: the general failing-input conjunct applied at the
exemplar frontmatter `id: x`. -/
theorem C10_closing_delimiter_newline_witness :
    parseSchema (String.mk ("---\nid: x".data ++ ['\n', '-', '-', '-']))
      = .error "Invalid format: YAML frontmatter not found" :=
  C10_closing_delimiter_newline.1 "---\nid: x".data (by decide)

/-- C6 witness: a two-file batch with one parsable document and one file
without frontmatter reports `total: 2, valid: 1, invalid: 1`, and the
failing file's entry is exactly the `parse_error` result. -/
theorem C6_batch_shape_witness :
    (validateFiles svNone fsMixed [] ["good.md", "bad.md"]).1.summary.total = 2
    ∧ (validateFiles svNone fsMixed [] ["good.md", "bad.md"]).1.summary.valid = 1
    ∧ (validateFiles svNone fsMixed [] ["good.md", "bad.md"]).1.summary.invalid = 1
    ∧ parseErrorResult "bad.md" "Invalid format: YAML frontmatter not found"
      ∈ (validateFiles svNone fsMixed [] ["good.md", "bad.md"]).1.results := by
  have h := C6_batch_shape svNone fsMixed [] ["good.md", "bad.md"]
  refine ⟨by rw [h.2.1]; rfl, by decide, by decide, by decide⟩

end AiContextSchema
